import Mathlib

/-!
Shallow embedding of `light-audio-player` (src/light-audio-player/src/main.rs),
a three-actor playback controller: a player actor owning the playback engine
(a rodio `Sink`, modelled as the ordered list of pending tracks plus pause and
volume state), an input actor reading stdin lines, and a life-support actor
polling queue depth on a timer.

Modelling conventions:
* `f32` volume arithmetic is modelled over `ℚ` with exact operations.
* The rodio `Sink` (external playback engine) is modelled by its observable
  state: pending-track list, paused flag, volume.  `sink.append` is list
  append, `sink.len()` is the list length, `sink.skip_one` drops the head,
  `sink.stop()` halts and clears the queue.
* `File::open(song).unwrap()` / `Decoder::new(file).unwrap()` inside
  `play_song` are modelled by an oracle `opens : Track → Bool`; when the
  oracle says `false` the code panics (`Panic.fileOpen`).
* `songs.shuffle(&mut rng)` permutes the slice in place using `thread_rng`;
  the permutation the rng picks is a parameter of the embedding (`sh` in the
  environment, or an explicit `shuffled` list), quantified in the theorems.
* Rust panics (`unwrap` on `Err`/`None`, `todo!()`) are `Except.error`;
  a normal return is `Except.ok`.
* mpsc channels: a `send` on a channel whose receiver is gone fails; the
  alive-ness of the two reply-channel receivers is part of the environment.
  The player's incoming command channel is modelled as the list of messages
  it will receive; the end of the list is the channel reporting
  disconnection (all senders dropped).
-/

-- ---------------------- Constants (main.rs) ---------------------

/-- `const VOLUME_ADJUSTMENT: f32 = 0.1f32;` (f32 modelled as an exact rational). -/
def VOLUME_ADJUSTMENT : ℚ := 1/10

/-- `const KEEP_ALIVE_TIME: u64 = 30;` -/
def KEEP_ALIVE_TIME : Nat := 30

-- ---------------------- Message protocol (main.rs) ---------------------

/-- `enum Contents` from main.rs. -/
inductive Contents where
  | Play
  | Pause
  | Stop
  | Skip
  | VDown
  | VUp
  | HowMany
  | DontDie
  deriving DecidableEq, Repr

/-- `enum Origin` from main.rs. -/
inductive Origin where
  | LifeSupport
  | Input
  deriving DecidableEq, Repr

/-- `struct Message { contents: Contents, origin: Origin }` from main.rs. -/
structure Message where
  contents : Contents
  origin : Origin
  deriving DecidableEq, Repr

/-- A track locator (a `PathBuf` in main.rs). -/
abbrev Track := String

/-- The distinct Rust panic sites of main.rs that the embedding models. -/
inductive Panic where
  | fileOpen           -- the unwraps of File::open / Decoder::new in play_song
  | recvDisconnected   -- rcv.recv().unwrap() in player
  | replySend          -- to_ls.send(..).unwrap() / to_input.send(..).unwrap() in player
  deriving DecidableEq, Repr

-- ---------------------- non-thread functions (main.rs) ---------------------

/-- `play_song` from main.rs.  The body is
`File::open(song).unwrap()`, `Decoder::new(file).unwrap()`, `sink.append(source)`:
both fallible steps are unwrapped, so a song that fails to open or decode
panics the calling thread; on success the song is appended to the sink's queue
and `Ok(())` is returned.  The declared `Result` return is therefore always
`Ok` when the function returns at all. -/
def play_song (opens : Track → Bool) (queue : List Track) (song : Track) :
    Except Panic (List Track) :=
  if opens song then .ok (queue ++ [song]) else .error .fileOpen

/-- `shuffle_and_queue` from main.rs.  `songs.shuffle(&mut rng)` reorders the
slice in place into some permutation chosen by `thread_rng`; that already
permuted order is the argument list here (the theorems quantify over it).
Each song is then passed to `play_song` in order.  The
`if let Err(_e) = play_song(..) { println!("song .. unable to be added") }`
arm is dead code: `play_song` never returns `Err`, its failures panic. -/
def shuffle_and_queue (opens : Track → Bool) (queue : List Track) :
    List Track → Except Panic (List Track)
  | [] => .ok queue
  | song :: rest =>
    match play_song opens queue song with
    | .ok q2 => shuffle_and_queue opens q2 rest
    | .error e => .error e

-- ---------------------- Player thread (main.rs) ---------------------

/-- Player-owned state: the `running` loop flag, and the observable state of
the rodio `Sink` (`paused`, `volume`, pending-track `queue`), the mutable
`songs` slice, and the two reply channels as the lists of values delivered
so far (`to_input : Sender<usize>`, `to_ls : Sender<usize>`). -/
structure PlayerState where
  running : Bool
  paused : Bool
  volume : ℚ
  queue : List Track
  songs : List Track
  inputReplies : List Nat
  lsReplies : List Nat
  deriving DecidableEq, Repr

/-- Environment of the player thread: whether the receiver of each reply
channel is still alive (a `send` to a dropped receiver returns `Err`, which
the player unwraps), the file-open oracle, and the permutation the rng
applies on each in-place shuffle. -/
structure Env where
  inputAlive : Bool
  lsAlive : Bool
  opens : Track → Bool
  sh : List Track → List Track

/-- The `match msg.contents` dispatch of one received message in `player`
(main.rs lines 67-92), literally arm by arm. -/
def processMessage (env : Env) (s : PlayerState) (m : Message) :
    Except Panic PlayerState :=
  match m.contents with
  | .Play => .ok { s with paused := false }
  | .Pause => .ok { s with paused := true }
  | .Skip => .ok { s with queue := s.queue.tail }
  | .Stop => .ok { s with running := false, queue := [] }
  | .VDown =>
    let volume := s.volume
    if VOLUME_ADJUSTMENT ≤ volume then
      .ok { s with volume := volume - VOLUME_ADJUSTMENT }
    else
      .ok { s with volume := 0 }
  | .VUp => .ok { s with volume := s.volume + VOLUME_ADJUSTMENT }
  | .DontDie =>
    match shuffle_and_queue env.opens s.queue (env.sh s.songs) with
    | .ok q => .ok { s with queue := q, songs := env.sh s.songs }
    | .error e => .error e
  | .HowMany =>
    match m.origin with
    | .LifeSupport =>
      if env.lsAlive then .ok { s with lsReplies := s.lsReplies ++ [s.queue.length] }
      else .error .replySend
    | .Input =>
      if env.inputAlive then .ok { s with inputReplies := s.inputReplies ++ [s.queue.length] }
      else .error .replySend

/-- The `while running` loop of `player` (main.rs lines 64-93): while the
flag is set, block on `rcv.recv().unwrap()` — a disconnected channel (end of
the message list) panics — and dispatch the message. -/
def player_loop (env : Env) : PlayerState → List Message → Except Panic PlayerState
  | s, [] => if s.running then .error .recvDisconnected else .ok s
  | s, m :: rest =>
    if s.running then
      match processMessage env s m with
      | .ok s2 => player_loop env s2 rest
      | .error e => .error e
    else .ok s

/-- The `player` thread function: `shuffle_and_queue` all songs first (from an
empty sink), then run the loop with `running = true`.  The sink starts
playing, unpaused, at rodio's default volume 1. -/
def player (env : Env) (songs : List Track) (msgs : List Message) :
    Except Panic PlayerState :=
  match shuffle_and_queue env.opens [] (env.sh songs) with
  | .error e => .error e
  | .ok q =>
    player_loop env
      { running := true, paused := false, volume := 1, queue := q,
        songs := env.sh songs, inputReplies := [], lsReplies := [] } msgs

-- ---------------------- Input thread (main.rs) ---------------------

/-- The message `input_thread` sends at the top of every loop iteration
(main.rs line 104): `Message::new(Contents::HowMany, Origin::LifeSupport)`. -/
def input_probe : Message := { contents := .HowMany, origin := .LifeSupport }

/-- `stdin.read_line(&mut buf)`: appends the next line, including its
terminating newline, to `buf` without clearing it (normal, non-EOF case;
`line` is the entered line without its newline). -/
def read_line (buf line : String) : String := buf ++ line ++ "\n"

/-- Outcome of the `match buf.as_str()` in `input_thread`. -/
inductive InputAction where
  | send (m : Message)
  | todoPanic
  deriving DecidableEq, Repr

/-- The `match buf.as_str()` of `input_thread` (main.rs lines 117-128),
arm by arm; the wildcard arm is `todo!()`, which panics. -/
def input_match (buf : String) : InputAction :=
  if buf = "p" then .send { contents := .Play, origin := .Input }
  else if buf = "=" then .send { contents := .Pause, origin := .Input }
  else if buf = "stop" then .send { contents := .Stop, origin := .Input }
  else if buf = "s" then .send { contents := .Skip, origin := .Input }
  else if buf = "+" then .send { contents := .VUp, origin := .Input }
  else if buf = "-" then .send { contents := .VDown, origin := .Input }
  else if buf = "q" then .send { contents := .HowMany, origin := .Input }
  else .todoPanic

/-- One iteration of `input_thread`'s loop: the probe message sent at the
top, the buffer after `read_line`, and the action taken by the match. -/
def input_iteration (buf line : String) : Message × String × InputAction :=
  (input_probe, read_line buf line, input_match (read_line buf line))

-- ---------------------- Life-support thread (main.rs) ---------------------

/-- Observable actions of one `life_support_thread` cycle. -/
inductive LSAction where
  | sendCmd (m : Message)
  | recvReply (n : Nat)
  | sleep (secs : Nat)
  deriving DecidableEq, Repr

/-- One cycle of `life_support_thread` (main.rs lines 134-147): send the
`HowMany`/`LifeSupport` query (on failure — command channel closed — the
loop breaks, modelled as `none`); block on `rcv.recv().unwrap()` for the
reply; if the reported length is `≤ 1`, attempt `DontDie` with
`let _ = to.send(..)` whose result `refillOk` is discarded; then sleep
`KEEP_ALIVE_TIME` seconds. -/
def life_support_cycle (commandOpen : Bool) (reply : Nat) (refillOk : Bool) :
    Option (List LSAction) :=
  if commandOpen then
    some ([LSAction.sendCmd { contents := .HowMany, origin := .LifeSupport },
           LSAction.recvReply reply]
      ++ (if reply ≤ 1 then
            [LSAction.sendCmd { contents := .DontDie, origin := .LifeSupport }]
          else [])
      ++ [LSAction.sleep KEEP_ALIVE_TIME])
  else none

-- ---------------------- Concrete instances for witnesses ---------------------

/-- An environment where both reply receivers are alive, every track opens,
and the rng happens to pick the identity permutation. -/
def env0 : Env :=
  { inputAlive := true, lsAlive := true, opens := fun _ => true, sh := id }

/-- An environment whose reply-channel receivers have both been dropped. -/
def envDead : Env :=
  { inputAlive := false, lsAlive := false, opens := fun _ => true, sh := id }

/-- A running player state with an empty queue. -/
def s0 : PlayerState :=
  { running := true, paused := false, volume := 1, queue := [], songs := [],
    inputReplies := [], lsReplies := [] }

-- ---------------------- Helper lemmas ---------------------

/-- When every song in the list opens, `shuffle_and_queue` appends the whole
list, in order, to the existing queue and succeeds. -/
theorem shuffle_and_queue_all_ok (opens : Track → Bool) :
    ∀ (l q : List Track), (∀ t ∈ l, opens t = true) →
      shuffle_and_queue opens q l = .ok (q ++ l) := by
  intro l
  induction l with
  | nil => intro q _; simp [shuffle_and_queue]
  | cons song rest ih =>
    intro q hall
    have hs : opens song = true := hall song (by simp)
    simp only [shuffle_and_queue, play_song, hs, if_pos]
    rw [ih (q ++ [song]) (fun t ht => hall t (by simp [ht]))]
    simp

/-- Dispatching any message other than `Stop` leaves the `running` flag
unchanged. -/
theorem processMessage_running (env : Env) (s s2 : PlayerState) (m : Message)
    (hm : m.contents ≠ Contents.Stop)
    (h : processMessage env s m = .ok s2) : s2.running = s.running := by
  cases m with
  | mk c o =>
    cases c with
    | Play => rw [← Except.ok.inj h]
    | Pause => rw [← Except.ok.inj h]
    | Stop => exact absurd rfl hm
    | Skip => rw [← Except.ok.inj h]
    | VDown =>
      simp only [processMessage] at h
      split at h <;> rw [← Except.ok.inj h]
    | VUp => rw [← Except.ok.inj h]
    | HowMany =>
      cases o with
      | LifeSupport =>
        simp only [processMessage] at h
        split at h
        · rw [← Except.ok.inj h]
        · exact absurd h (by simp)
      | Input =>
        simp only [processMessage] at h
        split at h
        · rw [← Except.ok.inj h]
        · exact absurd h (by simp)
    | DontDie =>
      simp only [processMessage] at h
      split at h
      · rw [← Except.ok.inj h]
      · exact absurd h (by simp)

/-- In an environment whose reply receivers are alive and whose tracks all
open, no message dispatch panics. -/
theorem processMessage_total (env : Env) (s : PlayerState) (m : Message)
    (hin : env.inputAlive = true) (hls : env.lsAlive = true)
    (hopen : ∀ t, env.opens t = true) :
    ∃ s2, processMessage env s m = .ok s2 := by
  cases m with
  | mk c o =>
    cases c with
    | Play => exact ⟨_, rfl⟩
    | Pause => exact ⟨_, rfl⟩
    | Stop => exact ⟨_, rfl⟩
    | Skip => exact ⟨_, rfl⟩
    | VDown =>
      simp only [processMessage]
      split <;> exact ⟨_, rfl⟩
    | VUp => exact ⟨_, rfl⟩
    | HowMany =>
      cases o with
      | LifeSupport =>
        simp only [processMessage, hls, if_pos]
        exact ⟨_, rfl⟩
      | Input =>
        simp only [processMessage, hin, if_pos]
        exact ⟨_, rfl⟩
    | DontDie =>
      simp only [processMessage]
      rw [shuffle_and_queue_all_ok env.opens (env.sh s.songs) s.queue
        (fun t _ => hopen t)]
      exact ⟨_, rfl⟩

/-- With the `running` flag cleared, the loop exits at once: no further
message from the channel is received or dispatched. -/
theorem player_loop_not_running (env : Env) (s : PlayerState)
    (msgs : List Message) (h : s.running = false) :
    player_loop env s msgs = .ok s := by
  cases msgs <;> simp [player_loop, h]

-- ---------------------- Claims ---------------------

/-- Claim C1: once a message with command `Stop` is processed, the player
loop terminates normally with the `running` flag false, and no command from
any later message is processed: the run's outcome is identical whether or
not messages follow the `Stop`. -/
theorem C1_stop_terminates (env : Env) (s : PlayerState) (o : Origin)
    (pre post : List Message)
    (hin : env.inputAlive = true) (hls : env.lsAlive = true)
    (hopen : ∀ t, env.opens t = true)
    (hs : s.running = true)
    (hpre : ∀ m ∈ pre, m.contents ≠ Contents.Stop) :
    ∃ sf,
      player_loop env s (pre ++ { contents := Contents.Stop, origin := o } :: post)
        = .ok sf ∧
      sf.running = false ∧
      player_loop env s (pre ++ { contents := Contents.Stop, origin := o } :: post)
        = player_loop env s (pre ++ [{ contents := Contents.Stop, origin := o }]) := by
  induction pre generalizing s with
  | nil =>
    refine ⟨{ s with running := false, queue := [] }, ?_, rfl, ?_⟩
    · simp [player_loop, hs, processMessage, player_loop_not_running]
    · simp [player_loop, hs, processMessage, player_loop_not_running]
  | cons m pre2 ih =>
    have hm : m.contents ≠ Contents.Stop := hpre m (by simp)
    obtain ⟨s2, h2⟩ := processMessage_total env s m hin hls hopen
    have hrun2 : s2.running = true := by
      rw [processMessage_running env s s2 m hm h2, hs]
    obtain ⟨sf, hok, hrun, hpost⟩ :=
      ih s2 hrun2 (fun x hx => hpre x (by simp [hx]))
    refine ⟨sf, ?_, hrun, ?_⟩
    · simpa [player_loop, hs, h2] using hok
    · simp only [List.cons_append, player_loop, hs, if_pos, h2]
      exact hpost

/-- Claim C1 witness: a concrete run — a `Play` then a `Stop` then a stray
`Skip` — ends in a normal `.ok` state with `running` false, and the result
ignores everything after the `Stop`. -/
theorem C1_stop_terminates_w :
    ∃ sf,
      player_loop env0 s0
          ([{ contents := Contents.Play, origin := Origin.Input }] ++
            { contents := Contents.Stop, origin := Origin.Input } ::
              [{ contents := Contents.Skip, origin := Origin.Input }])
        = .ok sf ∧
      sf.running = false ∧
      player_loop env0 s0
          ([{ contents := Contents.Play, origin := Origin.Input }] ++
            { contents := Contents.Stop, origin := Origin.Input } ::
              [{ contents := Contents.Skip, origin := Origin.Input }])
        = player_loop env0 s0
            ([{ contents := Contents.Play, origin := Origin.Input }] ++
              [{ contents := Contents.Stop, origin := Origin.Input }]) :=
  C1_stop_terminates env0 s0 Origin.Input
    [{ contents := Contents.Play, origin := Origin.Input }]
    [{ contents := Contents.Skip, origin := Origin.Input }]
    rfl rfl (fun _ => rfl) rfl (by decide)

/-- Claim C2: a `HowMany` (QueryLength) message tagged `Origin.LifeSupport`
that is answered delivers the queue length on the life-support reply channel
and leaves the input reply channel untouched, and vice versa for
`Origin.Input`. -/
theorem C2_origin_isolation (env : Env) (s s2 s3 : PlayerState) :
    (processMessage env s { contents := .HowMany, origin := .LifeSupport } = .ok s2 →
      s2.inputReplies = s.inputReplies ∧
      s2.lsReplies = s.lsReplies ++ [s.queue.length]) ∧
    (processMessage env s { contents := .HowMany, origin := .Input } = .ok s3 →
      s3.lsReplies = s.lsReplies ∧
      s3.inputReplies = s.inputReplies ++ [s.queue.length]) := by
  constructor
  · intro h
    simp only [processMessage] at h
    split at h
    · rw [← Except.ok.inj h]; exact ⟨rfl, rfl⟩
    · exact absurd h (by simp)
  · intro h
    simp only [processMessage] at h
    split at h
    · rw [← Except.ok.inj h]; exact ⟨rfl, rfl⟩
    · exact absurd h (by simp)

/-- The state after the player answers a life-support length query from `s0`. -/
def s0ls : PlayerState := { s0 with lsReplies := [0] }

/-- The state after the player answers an input length query from `s0`. -/
def s0in : PlayerState := { s0 with inputReplies := [0] }

/-- Claim C2 witness: concrete queries from `s0` route the single reply to
the matching channel only. -/
theorem C2_origin_isolation_w :
    (s0ls.inputReplies = s0.inputReplies ∧
      s0ls.lsReplies = s0.lsReplies ++ [s0.queue.length]) ∧
    (s0in.lsReplies = s0.lsReplies ∧
      s0in.inputReplies = s0.inputReplies ++ [s0.queue.length]) :=
  ⟨(C2_origin_isolation env0 s0 s0ls s0in).1 rfl,
   (C2_origin_isolation env0 s0 s0ls s0in).2 rfl⟩

/-- Claim C4 counterexample: with the command channel disconnected (no more
messages will ever arrive) and the loop still running, the player does NOT
return normally as it does for `Stop`: `rcv.recv().unwrap()` panics. -/
theorem C4_disconnect_cex :
    player_loop env0 s0 [] = .error Panic.recvDisconnected ∧
    ¬ ∃ sf, player_loop env0 s0 [] = Except.ok sf := by
  constructor
  · rfl
  · rintro ⟨sf, h⟩
    rw [show player_loop env0 s0 []
        = Except.error Panic.recvDisconnected from rfl] at h
    exact Except.noConfusion h

/-- Claim C4 amended: when the blocking receive reports disconnection while
the loop is running, the player thread panics (`recv().unwrap()` on the
`RecvError`) instead of terminating cleanly. -/
theorem C4_disconnect_panics (env : Env) (s : PlayerState)
    (hs : s.running = true) :
    player_loop env s [] = .error Panic.recvDisconnected := by
  simp [player_loop, hs]

/-- Claim C4 amended witness. -/
theorem C4_disconnect_panics_w :
    player_loop env0 s0 [] = Except.error Panic.recvDisconnected :=
  C4_disconnect_panics env0 s0 rfl

/-- Claim C6 counterexample: with both reply receivers dropped, a `HowMany`
query makes the player panic on `send(..).unwrap()`; the following `Play`
message is never processed, so the loop does not keep running. -/
theorem C6_reply_send_cex :
    player_loop envDead s0
        [{ contents := .HowMany, origin := .LifeSupport },
         { contents := .Play, origin := .Input }] = .error Panic.replySend ∧
    ¬ ∃ sf, player_loop envDead s0
        [{ contents := .HowMany, origin := .LifeSupport },
         { contents := .Play, origin := .Input }] = Except.ok sf := by
  constructor
  · rfl
  · rintro ⟨sf, h⟩
    rw [show player_loop envDead s0
        [{ contents := .HowMany, origin := .LifeSupport },
         { contents := .Play, origin := .Input }]
        = Except.error Panic.replySend from rfl] at h
    exact Except.noConfusion h

/-- Claim C6 amended: a reply-channel send failure (receiver gone) is NOT
swallowed — the player unwraps it and panics, aborting the loop, whichever
origin the query carried. -/
theorem C6_reply_send_panics (env : Env) (s : PlayerState)
    (rest : List Message) (hs : s.running = true) :
    (env.lsAlive = false →
      player_loop env s ({ contents := .HowMany, origin := .LifeSupport } :: rest)
        = .error Panic.replySend) ∧
    (env.inputAlive = false →
      player_loop env s ({ contents := .HowMany, origin := .Input } :: rest)
        = .error Panic.replySend) := by
  constructor
  · intro hls
    simp [player_loop, hs, processMessage, hls]
  · intro hin
    simp [player_loop, hs, processMessage, hin]

/-- Claim C6 amended witness. -/
theorem C6_reply_send_panics_w :
    (player_loop envDead s0 [{ contents := .HowMany, origin := .LifeSupport }]
        = .error Panic.replySend) ∧
    (player_loop envDead s0 [{ contents := .HowMany, origin := .Input }]
        = .error Panic.replySend) :=
  ⟨(C6_reply_send_panics envDead s0 [] rfl).1 rfl,
   (C6_reply_send_panics envDead s0 [] rfl).2 rfl⟩

/-- Claim C7: from any volume `v ≥ 0`, `VDown` subtracts one adjustment unit
when `v` is at least one unit and otherwise sets exactly 0, never producing a
negative volume; `VUp` adds the same unit unconditionally. -/
theorem C7_volume (env : Env) (s : PlayerState) (o o2 : Origin)
    (h : 0 ≤ s.volume) :
    (∃ s2, processMessage env s { contents := .VDown, origin := o } = .ok s2 ∧
      (VOLUME_ADJUSTMENT ≤ s.volume → s2.volume = s.volume - VOLUME_ADJUSTMENT) ∧
      (s.volume < VOLUME_ADJUSTMENT → s2.volume = 0) ∧
      0 ≤ s2.volume) ∧
    (∃ s3, processMessage env s { contents := .VUp, origin := o2 } = .ok s3 ∧
      s3.volume = s.volume + VOLUME_ADJUSTMENT) := by
  constructor
  · simp only [processMessage]
    split
    · rename_i hge
      exact ⟨_, rfl, fun _ => rfl,
        fun hlt => absurd hlt (not_lt.mpr hge), sub_nonneg.mpr hge⟩
    · rename_i hnge
      exact ⟨_, rfl, fun hge => absurd hge hnge, fun _ => rfl, le_refl 0⟩
  · exact ⟨_, rfl, rfl⟩

/-- Claim C7 witness: from the start state (volume 1), `VDown` yields 0.9 and
`VUp` yields 1.1. -/
theorem C7_volume_w :
    (∃ s2, processMessage env0 s0 { contents := .VDown, origin := .Input } = .ok s2 ∧
      (VOLUME_ADJUSTMENT ≤ s0.volume → s2.volume = s0.volume - VOLUME_ADJUSTMENT) ∧
      (s0.volume < VOLUME_ADJUSTMENT → s2.volume = 0) ∧
      0 ≤ s2.volume) ∧
    (∃ s3, processMessage env0 s0 { contents := .VUp, origin := .Input } = .ok s3 ∧
      s3.volume = s0.volume + VOLUME_ADJUSTMENT) :=
  C7_volume env0 s0 Origin.Input Origin.Input (by decide)

/-- Claim C3 divergence witness: the periodic queue-depth probe that
`input_thread` sends at the top of every iteration is tagged
`Origin.LifeSupport`, not `Origin.Input` — its reply is therefore routed to
the life-support reply channel — while every message built from a recognized
line does carry `Origin.Input` as the claim states. -/
theorem C3_probe_origin :
    input_probe.origin = Origin.LifeSupport ∧
    input_probe.origin ≠ Origin.Input ∧
    (input_iteration "" "").1.origin = Origin.LifeSupport ∧
    input_match "p" = .send { contents := .Play, origin := .Input } ∧
    input_match "=" = .send { contents := .Pause, origin := .Input } ∧
    input_match "stop" = .send { contents := .Stop, origin := .Input } ∧
    input_match "s" = .send { contents := .Skip, origin := .Input } ∧
    input_match "+" = .send { contents := .VUp, origin := .Input } ∧
    input_match "-" = .send { contents := .VDown, origin := .Input } ∧
    input_match "q" = .send { contents := .HowMany, origin := .Input } := by
  decide

/-- The file-open oracle for the C5 scenario: every track opens except
`bad.mp3`. -/
def badOpens : Track → Bool := fun t => t != "bad.mp3"

/-- Claim C5 divergence: a track that fails to open is NOT skipped with a
warning — `play_song` unwraps the failure and panics, aborting the whole
shuffle-and-queue sequence; the tracks after the bad one are never enqueued
and no `.ok` outcome exists. -/
theorem C5_track_failure_aborts :
    play_song badOpens [] "bad.mp3" = .error Panic.fileOpen ∧
    shuffle_and_queue badOpens [] ["good.mp3", "bad.mp3", "tail.mp3"]
      = .error Panic.fileOpen ∧
    ¬ ∃ q, shuffle_and_queue badOpens [] ["good.mp3", "bad.mp3", "tail.mp3"]
      = Except.ok q := by
  refine ⟨rfl, rfl, ?_⟩
  rintro ⟨q, h⟩
  rw [show shuffle_and_queue badOpens [] ["good.mp3", "bad.mp3", "tail.mp3"]
      = Except.error Panic.fileOpen from rfl] at h
  exact Except.noConfusion h

/-- Claim C8: when every track opens, shuffle-and-queue appends exactly the
shuffled order — the same multiset as the full track set — after the existing
queue; hence a `Refill` (`DontDie`) grows the queue while keeping everything
already queued in place as a prefix. -/
theorem C8_refill_permutation (env : Env) (s : PlayerState) (o : Origin)
    (hopen : ∀ t, env.opens t = true)
    (hperm : (env.sh s.songs).Perm s.songs) :
    shuffle_and_queue env.opens [] (env.sh s.songs) = .ok (env.sh s.songs) ∧
    ∃ s2, processMessage env s { contents := .DontDie, origin := o } = .ok s2 ∧
      s2.queue = s.queue ++ env.sh s.songs ∧
      (s2.queue.drop s.queue.length).Perm s.songs ∧
      s2.queue.take s.queue.length = s.queue := by
  have h1 := shuffle_and_queue_all_ok env.opens (env.sh s.songs) []
    (fun t _ => hopen t)
  have h2 := shuffle_and_queue_all_ok env.opens (env.sh s.songs) s.queue
    (fun t _ => hopen t)
  refine ⟨by simpa using h1, ?_⟩
  simp only [processMessage, h2]
  refine ⟨_, rfl, rfl, ?_, ?_⟩
  · rw [List.drop_left]
    exact hperm
  · exact List.take_left _ _

/-- A running player state holding one queued track and two known songs. -/
def s8 : PlayerState := { s0 with queue := ["x.mp3"], songs := ["a.mp3", "b.mp3"] }

/-- Claim C8 witness: with the identity shuffle on a two-song set, the refill
appends both songs after the already queued track. -/
theorem C8_refill_permutation_w :
    shuffle_and_queue env0.opens [] (env0.sh s8.songs) = .ok (env0.sh s8.songs) ∧
    ∃ s2, processMessage env0 s8 { contents := .DontDie, origin := .LifeSupport }
        = .ok s2 ∧
      s2.queue = s8.queue ++ env0.sh s8.songs ∧
      (s2.queue.drop s8.queue.length).Perm s8.songs ∧
      s2.queue.take s8.queue.length = s8.queue :=
  C8_refill_permutation env0 s8 Origin.LifeSupport (fun _ => rfl)
    (List.Perm.refl _)

/-- Claim C9: every life-support cycle (with the command channel open) emits
exactly one queue-length query, tagged `LifeSupport`, immediately followed by
the blocking reply receive; a `DontDie` refill is sent iff the reported depth
is at most 1; the outcome of that best-effort send is discarded (the cycle is
identical whatever the send result); and the cycle always ends by sleeping
the fixed `KEEP_ALIVE_TIME` = 30 seconds. -/
theorem C9_life_support (n : Nat) (ok1 ok2 : Bool) :
    ∃ acts, life_support_cycle true n ok1 = some acts ∧
      acts.count
        (LSAction.sendCmd { contents := .HowMany, origin := .LifeSupport }) = 1 ∧
      (∃ tl, acts = LSAction.sendCmd { contents := .HowMany, origin := .LifeSupport }
          :: LSAction.recvReply n :: tl) ∧
      ((LSAction.sendCmd { contents := .DontDie, origin := .LifeSupport }) ∈ acts
        ↔ n ≤ 1) ∧
      acts.getLast? = some (LSAction.sleep KEEP_ALIVE_TIME) ∧
      KEEP_ALIVE_TIME = 30 ∧
      life_support_cycle true n ok1 = life_support_cycle true n ok2 := by
  by_cases hn : n ≤ 1
  · refine ⟨[LSAction.sendCmd { contents := .HowMany, origin := .LifeSupport },
        LSAction.recvReply n,
        LSAction.sendCmd { contents := .DontDie, origin := .LifeSupport },
        LSAction.sleep KEEP_ALIVE_TIME], ?_, ?_, ⟨_, rfl⟩, ?_, rfl, rfl, rfl⟩
    · simp [life_support_cycle, hn]
    · rfl
    · exact iff_of_true (by simp) hn
  · refine ⟨[LSAction.sendCmd { contents := .HowMany, origin := .LifeSupport },
        LSAction.recvReply n,
        LSAction.sleep KEEP_ALIVE_TIME], ?_, ?_, ⟨_, rfl⟩, ?_, rfl, rfl, rfl⟩
    · simp [life_support_cycle, hn]
    · rfl
    · refine iff_of_false ?_ hn
      simp [LSAction.sendCmd.injEq]

/-- After `read_line` the buffer ends in the newline just appended, so it can
never equal a newline-free string. -/
theorem read_line_ne (buf line t : String)
    (h : t.data.getLast? ≠ some '\n') : read_line buf line ≠ t := by
  intro he
  apply h
  rw [← he]
  show ((buf ++ line ++ "\n").data).getLast? = some '\n'
  rw [String.data_append, String.data_append,
    show ("\n" : String).data = ['\n'] from rfl, List.getLast?_concat]

/-- Claim C10: the match in `input_thread` compares the whole accumulated
buffer, which `read_line` extends (never clears) and leaves ending in a
newline; hence no entered line can ever equal any of the seven command
strings, and every read — the first included — falls through to the
`todo!()` (panic) arm. -/
theorem C10_buffer_never_matches (buf line : String) :
    read_line buf line = buf ++ line ++ "\n" ∧
    read_line buf line ≠ "p" ∧
    read_line buf line ≠ "=" ∧
    read_line buf line ≠ "stop" ∧
    read_line buf line ≠ "s" ∧
    read_line buf line ≠ "+" ∧
    read_line buf line ≠ "-" ∧
    read_line buf line ≠ "q" ∧
    input_match (read_line buf line) = InputAction.todoPanic := by
  have h1 : read_line buf line ≠ "p" := read_line_ne buf line "p" (by decide)
  have h2 : read_line buf line ≠ "=" := read_line_ne buf line "=" (by decide)
  have h3 : read_line buf line ≠ "stop" := read_line_ne buf line "stop" (by decide)
  have h4 : read_line buf line ≠ "s" := read_line_ne buf line "s" (by decide)
  have h5 : read_line buf line ≠ "+" := read_line_ne buf line "+" (by decide)
  have h6 : read_line buf line ≠ "-" := read_line_ne buf line "-" (by decide)
  have h7 : read_line buf line ≠ "q" := read_line_ne buf line "q" (by decide)
  refine ⟨rfl, h1, h2, h3, h4, h5, h6, h7, ?_⟩
  simp only [input_match, if_neg h1, if_neg h2, if_neg h3, if_neg h4,
    if_neg h5, if_neg h6, if_neg h7]
